import Mathlib

/-!
Verification of `RelationalGCNRegressor`
(src/gnn_scheduler/gnns/models/relational_gcn_regressor.py).

The module under study is a thin composition: its constructor builds a
`MultiGraphConvolutionLayers` collaborator and a `GraphAggregationLayer`
collaborator, and its `forward` calls the first and feeds the result to
the second.  The two collaborator classes are external to the repository
slice; only their configuration and interface contract are known from the
spec, so their behaviour is modelled from the spec (see the doc comments
on the `apply` functions below).  Python floats are modelled as `Rat`,
tensors as lists of rows of `Rat`, and Python exceptions as `Except`.
-/

/-- A dense 2-dimensional tensor: a list of rows of rationals. -/
abbrev Tensor2 := List (List Rat)

/-- Width of a matrix: length of its first row (0 when empty). -/
def matWidth (x : Tensor2) : Nat := (x.headD []).length

/-- Sum of all entries of a matrix. -/
def matSum (x : Tensor2) : Rat := (x.map (fun r => r.sum)).sum

/-- The LeakyReLU activation function with the given negative slope. -/
def leakyReLUFn (slope v : Rat) : Rat := if v < 0 then slope * v else v

/-- The `torch.nn.LeakyReLU(leaky_relu_slope)` activation object built at
line 55 of the source: it is determined by its negative slope. -/
structure LeakyReLU where
  negative_slope : Rat
deriving Repr, DecidableEq

/-- Configuration of the `MultiGraphConvolutionLayers` collaborator, holding
exactly the arguments the source constructor passes at lines 52-60. -/
structure MultiGraphConvolutionLayers where
  in_features : Nat
  conv_units : List Nat
  activation : LeakyReLU
  edge_type_num : Nat
  dropout_rate : Rat
  with_features : Bool
  feature_dim_size : Nat
deriving Repr, DecidableEq

/-- Configuration of the `GraphAggregationLayer` collaborator, holding
exactly the arguments the source constructor passes at lines 64-68. -/
structure GraphAggregationLayer where
  in_units : Nat
  out_units : Nat
  leaky_relu_slope : Rat
deriving Repr, DecidableEq

/-- Possible runtime failures of a collaborator call: a tensor-shape
mismatch recording the expected and the actual width. -/
inductive TensorError where
  | shapeMismatch (expected got : Nat)
deriving Repr, DecidableEq

/-- Modelled from the spec: `MultiGraphConvolutionLayers` is an external
collaborator whose class body is not part of the repository slice.  The
spec fixes only its interface contract: it accepts (node features,
adjacency tensors, optional feature tensor); it produces hidden node
embeddings whose width is the last convolution size; the optional feature
tensor takes effect only when the layer was configured with feature
support; shape mismatches surface as errors of the tensor framework.  The
numeric content of the embedding (message passing, weight sharing,
normalization) is declared out of scope by the spec, so a concrete
representative is used: each output entry combines the node row, the
adjacency tensors and the effective feature tensor through the configured
activation. -/
def MultiGraphConvolutionLayers.apply (gc : MultiGraphConvolutionLayers)
    (node_features : Tensor2) (adj_matrices : List Tensor2)
    (h_tensor : Option Tensor2) : Except TensorError Tensor2 :=
  if node_features.all (fun r => r.length == gc.in_features) then
    let hEff : Tensor2 := if gc.with_features then h_tensor.getD [] else []
    let context : Rat := matSum hEff + (adj_matrices.map matSum).sum
    .ok (node_features.map (fun r =>
      List.replicate (gc.conv_units.getLastD 0)
        (leakyReLUFn gc.activation.negative_slope (r.sum + context))))
  else
    .error (.shapeMismatch gc.in_features (matWidth node_features))

/-- Modelled from the spec: `GraphAggregationLayer` is an external
collaborator whose class body is not part of the repository slice.  The
spec fixes only its interface contract: it accepts hidden node embeddings
and reduces them to a single graph-level regression output whose
dimensionality is its configured output size; shape mismatches surface as
errors of the tensor framework.  A concrete representative readout (an
activated sum of all embeddings) is used for the out-of-scope numeric
content. -/
def GraphAggregationLayer.apply (ag : GraphAggregationLayer)
    (hidden : Tensor2) : Except TensorError (List Rat) :=
  if hidden.all (fun r => r.length == ag.in_units) then
    .ok (List.replicate ag.out_units
      (leakyReLUFn ag.leaky_relu_slope (matSum hidden)))
  else
    .error (.shapeMismatch ag.in_units (matWidth hidden))

/-- Failure of the `RelationalGCNRegressor` constructor: the Python
`IndexError` raised by `conv_units[-1]` at line 65 when the list is
empty. -/
inductive InitError where
  | indexError
deriving Repr, DecidableEq

/-- The composed module: the two sub-modules stored by `__init__`. -/
structure RelationalGCNRegressor where
  graph_conv : MultiGraphConvolutionLayers
  aggregation_layer : GraphAggregationLayer
deriving Repr, DecidableEq

/-- `RelationalGCNRegressor.__init__` (source lines 22-68): build the
convolution stack from the given arguments with `edge_type_num=2` and a
`LeakyReLU(leaky_relu_slope)` activation, then build the aggregation
layer with input size `conv_units[-1]` and output size
`aggregation_units`.  Indexing `conv_units[-1]` on an empty list raises
`IndexError`, modelled as the `Except` error case. -/
def RelationalGCNRegressor.init (in_features : Nat) (conv_units : List Nat)
    (aggregation_units : Nat) (dropout_rate : Rat) (leaky_relu_slope : Rat)
    (with_features : Bool) (feature_dim_size : Nat) :
    Except InitError RelationalGCNRegressor :=
  let graph_conv : MultiGraphConvolutionLayers :=
    { in_features := in_features
      conv_units := conv_units
      activation := { negative_slope := leaky_relu_slope }
      edge_type_num := 2
      dropout_rate := dropout_rate
      with_features := with_features
      feature_dim_size := feature_dim_size }
  match conv_units.getLast? with
  | none => .error .indexError
  | some last =>
    .ok { graph_conv := graph_conv
          aggregation_layer :=
            { in_units := last
              out_units := aggregation_units
              leaky_relu_slope := leaky_relu_slope } }

/-- `RelationalGCNRegressor.forward` (source lines 70-93): call the graph
convolution stack on the inputs, then the aggregation layer on its
output, returning that result; an exception from either call propagates
unchanged. -/
def RelationalGCNRegressor.forward (m : RelationalGCNRegressor)
    (node_features : Tensor2) (adj_matrices : List Tensor2)
    (h_tensor : Option Tensor2) : Except TensorError (List Rat) :=
  match m.graph_conv.apply node_features adj_matrices h_tensor with
  | .error e => .error e
  | .ok hidden_features => m.aggregation_layer.apply hidden_features

/-- A sample module as built by the constructor from `in_features = 4`,
`conv_units = [8, 16]`, `aggregation_units = 3`, `dropout_rate = 0`,
`leaky_relu_slope = 1/10`, `with_features = false`,
`feature_dim_size = 0`. -/
def sampleModel : RelationalGCNRegressor :=
  { graph_conv :=
      { in_features := 4
        conv_units := [8, 16]
        activation := { negative_slope := 1/10 }
        edge_type_num := 2
        dropout_rate := 0
        with_features := false
        feature_dim_size := 0 }
    aggregation_layer := { in_units := 16, out_units := 3, leaky_relu_slope := 1/10 } }

/-- A second sample module, built from a different `conv_units` list with
the same last entry (`conv_units = [16]`) and the same
`aggregation_units = 3`. -/
def sampleModel2 : RelationalGCNRegressor :=
  { graph_conv :=
      { in_features := 4
        conv_units := [16]
        activation := { negative_slope := 1/10 }
        edge_type_num := 2
        dropout_rate := 0
        with_features := false
        feature_dim_size := 0 }
    aggregation_layer := { in_units := 16, out_units := 3, leaky_relu_slope := 1/10 } }

/-- Inversion of a successful constructor call: the stored sub-module
configurations are exactly the ones the constructor wires in. -/
theorem init_ok_elim {in_f : Nat} {cu : List Nat} {au : Nat} {dr sl : Rat}
    {wf : Bool} {fd : Nat} {m : RelationalGCNRegressor}
    (hok : RelationalGCNRegressor.init in_f cu au dr sl wf fd = .ok m) :
    m.graph_conv =
      { in_features := in_f
        conv_units := cu
        activation := { negative_slope := sl }
        edge_type_num := 2
        dropout_rate := dr
        with_features := wf
        feature_dim_size := fd } ∧
    m.aggregation_layer.out_units = au ∧
    m.aggregation_layer.leaky_relu_slope = sl ∧
    cu.getLast? = some m.aggregation_layer.in_units := by
  unfold RelationalGCNRegressor.init at hok
  cases hcu : cu.getLast? with
  | none => rw [hcu] at hok; exact absurd hok (by simp)
  | some last =>
    rw [hcu] at hok
    simp only [Except.ok.injEq] at hok
    subst hok
    exact ⟨rfl, rfl, rfl, rfl⟩

/-- The convolution stack ignores the optional feature tensor when it was
configured without feature support. -/
theorem apply_ignores_h {gc : MultiGraphConvolutionLayers}
    (hwf : gc.with_features = false) (x : Tensor2) (a : List Tensor2)
    (h1 h2 : Option Tensor2) : gc.apply x a h1 = gc.apply x a h2 := by
  unfold MultiGraphConvolutionLayers.apply
  rw [hwf]
  simp

/-- A successful forward pass returns a vector of the aggregation layer's
configured output size. -/
theorem forward_ok_length {m : RelationalGCNRegressor} {x : Tensor2}
    {a : List Tensor2} {h : Option Tensor2} {out : List Rat}
    (hf : m.forward x a h = .ok out) :
    out.length = m.aggregation_layer.out_units := by
  unfold RelationalGCNRegressor.forward GraphAggregationLayer.apply at hf
  split at hf
  · exact absurd hf (by simp)
  · split at hf
    · simp only [Except.ok.injEq] at hf
      subst hf
      exact List.length_replicate _ _
    · exact absurd hf (by simp)

/-- C1: for every input (node features, adjacency tensors, optional feature
tensor), forward returns exactly the aggregation layer applied to the graph
convolution stack's result on those inputs, with no other computation
interposed. -/
theorem forward_is_composition (m : RelationalGCNRegressor) (x : Tensor2)
    (a : List Tensor2) (h : Option Tensor2) :
    m.forward x a h =
      (m.graph_conv.apply x a h).bind m.aggregation_layer.apply := by
  unfold RelationalGCNRegressor.forward
  cases m.graph_conv.apply x a h <;> rfl

/-- C2: for every constructor call with a non-empty conv_units list, the
aggregation layer is built with input size equal to the last element of
conv_units and output size equal to aggregation_units. -/
theorem aggregation_layer_sized_to_conv_output (in_f : Nat) (cu : List Nat)
    (au : Nat) (dr sl : Rat) (wf : Bool) (fd : Nat)
    (m : RelationalGCNRegressor) (hne : cu ≠ [])
    (hok : RelationalGCNRegressor.init in_f cu au dr sl wf fd = .ok m) :
    m.aggregation_layer.in_units = cu.getLast hne ∧
    m.aggregation_layer.out_units = au := by
  obtain ⟨-, hau, -, hlast⟩ := init_ok_elim hok
  refine ⟨?_, hau⟩
  obtain ⟨h2, heq⟩ :=
    List.mem_getLast?_eq_getLast (show _ ∈ cu.getLast? by rw [hlast]; rfl)
  exact heq

/-- C2 witness: a concrete successful construction with conv_units =
[8, 16] yields aggregation input size 16 and output size 3. -/
theorem aggregation_layer_sized_to_conv_output_witness :
    sampleModel.aggregation_layer.in_units =
      ([8, 16] : List Nat).getLast (by decide) ∧
    sampleModel.aggregation_layer.out_units = 3 :=
  aggregation_layer_sized_to_conv_output 4 [8, 16] 3 0 (1/10) false 0
    sampleModel (by decide) rfl

/-- C3: every successful constructor call builds the graph convolution
stack with exactly the listed configuration: input size in_features, the
conv_units sizes, a LeakyReLU activation with slope leaky_relu_slope,
edge-type count 2, the given dropout rate, and the optional-feature flag
and size. -/
theorem graph_conv_config_exact (in_f : Nat) (cu : List Nat) (au : Nat)
    (dr sl : Rat) (wf : Bool) (fd : Nat) (m : RelationalGCNRegressor)
    (hok : RelationalGCNRegressor.init in_f cu au dr sl wf fd = .ok m) :
    m.graph_conv =
      { in_features := in_f
        conv_units := cu
        activation := { negative_slope := sl }
        edge_type_num := 2
        dropout_rate := dr
        with_features := wf
        feature_dim_size := fd } :=
  (init_ok_elim hok).1

/-- C3 witness: the concrete model built from (4, [8, 16], 3, 0, 1/10,
false, 0) stores exactly that configuration in its convolution stack. -/
theorem graph_conv_config_exact_witness :
    sampleModel.graph_conv =
      { in_features := 4
        conv_units := [8, 16]
        activation := { negative_slope := 1/10 }
        edge_type_num := 2
        dropout_rate := 0
        with_features := false
        feature_dim_size := 0 } :=
  graph_conv_config_exact 4 [8, 16] 3 0 (1/10) false 0 sampleModel rfl

/-- C4: on a successful forward pass of a successfully constructed module,
the output is one regression vector for the graph whose length equals the
aggregation layer's declared output size, which is aggregation_units. -/
theorem forward_output_dim_matches (in_f : Nat) (cu : List Nat) (au : Nat)
    (dr sl : Rat) (wf : Bool) (fd : Nat) (m : RelationalGCNRegressor)
    (x : Tensor2) (a : List Tensor2) (h : Option Tensor2) (out : List Rat)
    (hok : RelationalGCNRegressor.init in_f cu au dr sl wf fd = .ok m)
    (hf : m.forward x a h = .ok out) :
    out.length = m.aggregation_layer.out_units ∧ out.length = au := by
  have hlen := forward_ok_length hf
  exact ⟨hlen, hlen.trans (init_ok_elim hok).2.1⟩

/-- C4 witness: a concrete forward pass of the sample model returns a
vector of length 3 = aggregation_units. -/
theorem forward_output_dim_matches_witness :
    (List.replicate 3 (160 : Rat)).length =
      sampleModel.aggregation_layer.out_units ∧
    (List.replicate 3 (160 : Rat)).length = 3 :=
  forward_output_dim_matches 4 [8, 16] 3 0 (1/10) false 0 sampleModel
    [[1, 2, 3, 4]] [] none (List.replicate 3 160) rfl
    (by norm_num [RelationalGCNRegressor.forward,
      MultiGraphConvolutionLayers.apply, GraphAggregationLayer.apply,
      sampleModel, matSum, leakyReLUFn])

/-- C5: when the module was constructed with with_features = false, two
forward calls differing only in the optional feature tensor return the
same result: the tensor is ignored. -/
theorem h_tensor_ignored_without_features (in_f : Nat) (cu : List Nat)
    (au : Nat) (dr sl : Rat) (fd : Nat) (m : RelationalGCNRegressor)
    (x : Tensor2) (a : List Tensor2) (h1 h2 : Option Tensor2)
    (hok : RelationalGCNRegressor.init in_f cu au dr sl false fd = .ok m) :
    m.forward x a h1 = m.forward x a h2 := by
  have hwf : m.graph_conv.with_features = false := by
    rw [(init_ok_elim hok).1]
  unfold RelationalGCNRegressor.forward
  rw [apply_ignores_h hwf x a h1 h2]

/-- C5 witness: on the sample model (built without feature support),
passing a feature tensor gives the same result as passing none. -/
theorem h_tensor_ignored_without_features_witness :
    sampleModel.forward [[1, 2, 3, 4]] [] (some [[5]]) =
    sampleModel.forward [[1, 2, 3, 4]] [] none :=
  h_tensor_ignored_without_features 4 [8, 16] 3 0 (1/10) 0 sampleModel
    [[1, 2, 3, 4]] [] (some [[5]]) none rfl

/-- C6: two modules built with the same aggregation_units but different
conv_units lists produce forward outputs of the same length on any
successful passes: the output dimensionality depends only on
aggregation_units. -/
theorem output_dim_independent_of_conv_units (in1 in2 : Nat)
    (cu1 cu2 : List Nat) (au : Nat) (dr1 dr2 sl1 sl2 : Rat)
    (wf1 wf2 : Bool) (fd1 fd2 : Nat) (m1 m2 : RelationalGCNRegressor)
    (x1 x2 : Tensor2) (a1 a2 : List Tensor2) (h1 h2 : Option Tensor2)
    (o1 o2 : List Rat)
    (hok1 : RelationalGCNRegressor.init in1 cu1 au dr1 sl1 wf1 fd1 = .ok m1)
    (hok2 : RelationalGCNRegressor.init in2 cu2 au dr2 sl2 wf2 fd2 = .ok m2)
    (hf1 : m1.forward x1 a1 h1 = .ok o1)
    (hf2 : m2.forward x2 a2 h2 = .ok o2) :
    o1.length = au ∧ o2.length = au ∧ o1.length = o2.length := by
  have l1 := (forward_ok_length hf1).trans (init_ok_elim hok1).2.1
  have l2 := (forward_ok_length hf2).trans (init_ok_elim hok2).2.1
  exact ⟨l1, l2, l1.trans l2.symm⟩

/-- C6 witness: the sample models built from conv_units [8, 16] and [16]
with the same aggregation_units = 3 give outputs of the same length 3. -/
theorem output_dim_independent_of_conv_units_witness :
    (List.replicate 3 (160 : Rat)).length = 3 ∧
    (List.replicate 3 (0 : Rat)).length = 3 ∧
    (List.replicate 3 (160 : Rat)).length =
      (List.replicate 3 (0 : Rat)).length :=
  output_dim_independent_of_conv_units 4 4 [8, 16] [16] 3 0 0 (1/10) (1/10)
    false false 0 0 sampleModel sampleModel2 [[1, 2, 3, 4]] [[0, 0, 0, 0]]
    [] [] none none (List.replicate 3 160) (List.replicate 3 0) rfl rfl
    (by norm_num [RelationalGCNRegressor.forward,
      MultiGraphConvolutionLayers.apply, GraphAggregationLayer.apply,
      sampleModel, matSum, leakyReLUFn])
    (by norm_num [RelationalGCNRegressor.forward,
      MultiGraphConvolutionLayers.apply, GraphAggregationLayer.apply,
      sampleModel2, matSum, leakyReLUFn])

/-- C7: forward fails with an error exactly when one of the two
collaborator calls fails with that same error: the first call's error, or
the second call's error on the first call's output; no other handling. -/
theorem forward_error_propagation (m : RelationalGCNRegressor) (x : Tensor2)
    (a : List Tensor2) (h : Option Tensor2) (e : TensorError) :
    m.forward x a h = .error e ↔
      m.graph_conv.apply x a h = .error e ∨
      ∃ y, m.graph_conv.apply x a h = .ok y ∧
        m.aggregation_layer.apply y = .error e := by
  unfold RelationalGCNRegressor.forward
  cases hg : m.graph_conv.apply x a h with
  | error e2 => simp
  | ok y => simp

/-- C8: the constructor fails with the index error exactly on an empty
conv_units list, and succeeds on every non-empty conv_units list. -/
theorem init_empty_conv_units_fails (in_f : Nat) (cu : List Nat) (au : Nat)
    (dr sl : Rat) (wf : Bool) (fd : Nat) :
    (RelationalGCNRegressor.init in_f cu au dr sl wf fd =
        .error .indexError ↔ cu = []) ∧
    (cu ≠ [] →
      ∃ m, RelationalGCNRegressor.init in_f cu au dr sl wf fd = .ok m) := by
  unfold RelationalGCNRegressor.init
  cases hcu : cu.getLast? with
  | none =>
    have hnil : cu = [] := by simpa using hcu
    simp [hnil]
  | some last =>
    have hne : cu ≠ [] := by rintro rfl; simp at hcu
    constructor
    · simp [hne]
    · intro _
      exact ⟨_, rfl⟩

/-- C8 witness: construction fails on conv_units = [] and succeeds on
conv_units = [8, 16]. -/
theorem init_empty_conv_units_fails_witness :
    RelationalGCNRegressor.init 4 [] 3 0 (1/10) false 0 =
      .error .indexError ∧
    ∃ m, RelationalGCNRegressor.init 4 [8, 16] 3 0 (1/10) false 0 = .ok m :=
  ⟨(init_empty_conv_units_fails 4 [] 3 0 (1/10) false 0).1.mpr rfl,
   (init_empty_conv_units_fails 4 [8, 16] 3 0 (1/10) false 0).2 (by decide)⟩

/-- C9: every successfully constructed module has its convolution stack
configured with edge-type count exactly 2, whatever the constructor
arguments were. -/
theorem edge_type_num_always_two (in_f : Nat) (cu : List Nat) (au : Nat)
    (dr sl : Rat) (wf : Bool) (fd : Nat) (m : RelationalGCNRegressor)
    (hok : RelationalGCNRegressor.init in_f cu au dr sl wf fd = .ok m) :
    m.graph_conv.edge_type_num = 2 := by
  rw [(init_ok_elim hok).1]

/-- C9 witness: the sample model has edge-type count 2. -/
theorem edge_type_num_always_two_witness :
    sampleModel.graph_conv.edge_type_num = 2 :=
  edge_type_num_always_two 4 [8, 16] 3 0 (1/10) false 0 sampleModel rfl

/-- C10: in every successfully constructed module, the convolution stack's
activation slope and the aggregation layer's slope both equal the single
leaky_relu_slope argument, hence each other. -/
theorem leaky_relu_slope_shared (in_f : Nat) (cu : List Nat) (au : Nat)
    (dr sl : Rat) (wf : Bool) (fd : Nat) (m : RelationalGCNRegressor)
    (hok : RelationalGCNRegressor.init in_f cu au dr sl wf fd = .ok m) :
    m.graph_conv.activation.negative_slope = sl ∧
    m.aggregation_layer.leaky_relu_slope = sl ∧
    m.graph_conv.activation.negative_slope =
      m.aggregation_layer.leaky_relu_slope := by
  obtain ⟨hgc, -, hsl, -⟩ := init_ok_elim hok
  have h1 : m.graph_conv.activation.negative_slope = sl := by rw [hgc]
  exact ⟨h1, hsl, h1.trans hsl.symm⟩

/-- C10 witness: in the sample model both slopes are the constructor
argument 1/10. -/
theorem leaky_relu_slope_shared_witness :
    sampleModel.graph_conv.activation.negative_slope = 1/10 ∧
    sampleModel.aggregation_layer.leaky_relu_slope = 1/10 ∧
    sampleModel.graph_conv.activation.negative_slope =
      sampleModel.aggregation_layer.leaky_relu_slope :=
  leaky_relu_slope_shared 4 [8, 16] 3 0 (1/10) false 0 sampleModel rfl
